import Mathlib

/-!
Verification of the trustgraph messaging processor framework.

Shallow embedding of:
- `src/trustgraph/base/basic/base_processor.py` (`BaseConsumer.loop`,
  `BaseProcessor.start`),
- `src/trustgraph/graph_embeddings_client.py` (`GraphEmbeddingsClient.request`),
- `src/trustgraph/kg/extract_relationships/extract.py` (`Processor.handle`),
- `src/trustgraph/vector/milvus_write/write.py` (`Processor.handle`).

Python exceptions are modelled with `Except`; broker interactions
(receive / acknowledge / negative_acknowledge / inserts into stores) are
modelled by explicit scripts of outcomes and by traces of the actions the
code performs on them.  External collaborators (UTF-8 decoding, the prompt
builder, the LLM client, the Milvus store) are parameters of the
definitions that call them.
-/

namespace TrustGraph

/-- A broker action the consumer loop performs on a message:
`consumer.acknowledge(msg)` or `consumer.negative_acknowledge(msg)`. -/
inductive Event (M : Type) where
  | ack (m : M)
  | nack (m : M)
  deriving DecidableEq

/-- Outcome of the body of one iteration of `BaseConsumer.loop` after
`receive` has returned a message: the `try` block runs `handle(msg)` then
`consumer.acknowledge(msg)`; if either raises, the `except` clause runs
`consumer.negative_acknowledge(msg)`, which may itself raise (escaping the
loop). -/
inductive BaseConsumer.TryOutcome (Err : Type) where
  | acked
  | nacked (e : Err)
  | escaped (e : Err)
  deriving DecidableEq

/-- One iteration body of `BaseConsumer.loop` (base_processor.py lines 37-49):
`try: handle(msg); self.consumer.acknowledge(msg)
 except Exception as e: print(...); self.consumer.negative_acknowledge(msg)`.
The `try` block encloses the `acknowledge` call, so an error raised by
`acknowledge` is caught by the same `except` clause as a handler error. -/
def BaseConsumer.iter {M Err : Type} (handle ackOp nackOp : M → Except Err Unit)
    (m : M) : BaseConsumer.TryOutcome Err :=
  match (do handle m; ackOp m : Except Err Unit) with
  | .ok _ => .acked
  | .error e =>
    match nackOp m with
    | .ok _ => .nacked e
    | .error e2 => .escaped e2

/-- The loop of `BaseConsumer.loop` (base_processor.py lines 31-49) run
against a script of `receive()` outcomes: each script entry is either a
delivered message or an error raised inside `receive()` itself.
`receive()` is called outside the `try` block, so a receive error
propagates out of the loop.  The result is the list of broker actions
performed, paired with the error that escaped the loop (`none` when the
observed script is exhausted with the loop still running). -/
def BaseConsumer.loop {M Err : Type} (handle ackOp nackOp : M → Except Err Unit) :
    List (Except Err M) → List (Event M) × Option Err
  | [] => ([], none)
  | .error e :: _ => ([], some e)
  | .ok m :: rest =>
    match BaseConsumer.iter handle ackOp nackOp m with
    | .acked => ((Event.ack m) :: (BaseConsumer.loop handle ackOp nackOp rest).1,
                 (BaseConsumer.loop handle ackOp nackOp rest).2)
    | .nacked _ => ((Event.nack m) :: (BaseConsumer.loop handle ackOp nackOp rest).1,
                    (BaseConsumer.loop handle ackOp nackOp rest).2)
    | .escaped e => ([], some e)

/-- A channel operation that always succeeds (healthy broker). -/
def BaseConsumer.okCh {M Err : Type} : M → Except Err Unit := fun _ => .ok ()

/-- The single broker action a healthy-channel iteration performs on a
message: acknowledge when `handle` returns, negative-acknowledge when it
raises. -/
def BaseConsumer.iterEvent {M Err : Type} (handle : M → Except Err Unit)
    (m : M) : Event M :=
  match handle m with
  | .ok _ => Event.ack m
  | .error _ => Event.nack m

/-- `BaseConsumer.loop` on a healthy channel when `stop()` (which sets
`self.running = False`, base_processor.py lines 59-60) is invoked during
iteration `k` (0-indexed): the `while self.running` test is only evaluated
at iteration boundaries, so checks 0..k see `running = True` and the check
after iteration `k` sees `running = False`.  The messages the broker would
deliver on successive `receive()` calls are `msgs`. -/
def BaseConsumer.loopWithStop {M Err : Type} (handle : M → Except Err Unit) :
    Nat → List M → List (Event M)
  | _, [] => []
  | 0, m :: _ => [BaseConsumer.iterEvent handle m]
  | k + 1, m :: rest =>
    BaseConsumer.iterEvent handle m :: BaseConsumer.loopWithStop handle k rest

/-- What one supervisor attempt (`p = cls(**args); p.run()`,
base_processor.py lines 169-170) does: return normally, raise
`KeyboardInterrupt`, raise `_pulsar.Interrupted`, or raise any other
exception. -/
inductive BaseProcessor.Outcome (Err : Type) where
  | ok
  | keyboardInterrupt
  | pulsarInterrupted
  | exc (e : Err)
  deriving DecidableEq

/-- An observable step of the supervisor loop: one construct-and-run
attempt, a logged exception, or a `time.sleep` of the given seconds. -/
inductive BaseProcessor.SupEvent (Err : Type) where
  | attempt
  | logged (e : Err)
  | slept (secs : Nat)
  deriving DecidableEq

/-- Whether a supervisor event is a construct-and-run attempt. -/
def BaseProcessor.SupEvent.isAttempt {Err : Type} :
    BaseProcessor.SupEvent Err → Bool
  | .attempt => true
  | _ => false

/-- The `while True` loop of `BaseProcessor.start` (base_processor.py lines
165-187) run against a script of attempt outcomes.  Returns the events
performed and `true` when the method returned (clean exit on
`KeyboardInterrupt` or `_pulsar.Interrupted`); `false` when the observed
script is exhausted with the loop still running.  On any other exception it
prints the error and sleeps 10 seconds, then the loop reconstructs the
stage from scratch. -/
def BaseProcessor.start {Err : Type} :
    List (BaseProcessor.Outcome Err) →
      List (BaseProcessor.SupEvent Err) × Bool
  | [] => ([], false)
  | .keyboardInterrupt :: _ => ([.attempt], true)
  | .pulsarInterrupted :: _ => ([.attempt], true)
  | .ok :: rest =>
    ((BaseProcessor.SupEvent.attempt) :: (BaseProcessor.start rest).1,
     (BaseProcessor.start rest).2)
  | .exc e :: rest =>
    ((BaseProcessor.SupEvent.attempt) :: (BaseProcessor.SupEvent.logged e)
       :: (BaseProcessor.SupEvent.slept 10) :: (BaseProcessor.start rest).1,
     (BaseProcessor.start rest).2)

/-- The request payload of `GraphEmbeddingsClient.request`
(graph_embeddings_client.py lines 58-61):
`GraphEmbeddingsRequest(vectors=vectors, limit=limit)`. -/
structure GraphEmbeddingsRequest where
  vectors : List (List Int)
  limit : Nat
  deriving DecidableEq

/-- A message received on the client's response subscription: its broker
properties (string-to-string map, modelled as an association list looked up
first-match) and the `entities` field of its payload
(`msg.value().entities`). -/
structure RespMsg where
  props : List (String × String)
  entities : List String
  deriving DecidableEq

/-- How a `request()` call terminates: return of the matching payload's
entities, the pulsar `Timeout` exception raised by `receive`, or the Python
`KeyError` raised by `msg.properties()["id"]` when the property is absent. -/
inductive ReqOutcome where
  | success (entities : List String)
  | timeoutError
  | keyError
  deriving DecidableEq

/-- The observable trace of one `request()` call: the requests sent with
their properties, the messages acknowledged, the outcome, and the total
time the call spent blocked in `receive` (milliseconds). -/
structure ReqTrace where
  sent : List (GraphEmbeddingsRequest × List (String × String))
  acked : List RespMsg
  outcome : ReqOutcome
  elapsedMillis : Nat
  deriving DecidableEq

/-- The `while True` receive loop of `GraphEmbeddingsClient.request`
(graph_embeddings_client.py lines 65-77).  Every iteration calls
`self.consumer.receive(timeout_millis=timeout * 1000)` with the same full
`budget`; there is no deadline carried across iterations.  `arrivals` lists
the messages the subscription delivers, each with the time that `receive`
call waits for it; a wait beyond `budget` means `receive` raises `Timeout`
after the full budget.  A message whose properties lack `"id"` makes
`msg.properties()["id"]` raise `KeyError` before any acknowledgement.
Result: (messages acknowledged, outcome, total blocked milliseconds). -/
def GraphEmbeddingsClient.receiveLoop (id : String) (budget : Nat) :
    List (Nat × RespMsg) → List RespMsg × ReqOutcome × Nat
  | [] => ([], .timeoutError, budget)
  | (d, m) :: rest =>
    if budget < d then ([], .timeoutError, budget)
    else
      match m.props.lookup "id" with
      | none => ([], .keyError, d)
      | some mid =>
        if mid = id then ([m], .success m.entities, d)
        else
          ((m :: (GraphEmbeddingsClient.receiveLoop id budget rest).1),
           (GraphEmbeddingsClient.receiveLoop id budget rest).2.1,
           d + (GraphEmbeddingsClient.receiveLoop id budget rest).2.2)

/-- `GraphEmbeddingsClient.request` (graph_embeddings_client.py lines 54-77).
`id` stands for the `str(uuid.uuid4())` correlation id generated for this
call; the request is sent once with `properties={"id": id}`, then the
receive loop runs.  Source defaults: `limit=10`, `timeout=500`. -/
def GraphEmbeddingsClient.request (id : String) (vectors : List (List Int))
    (limit timeout : Nat) (arrivals : List (Nat × RespMsg)) : ReqTrace :=
  { sent := [(⟨vectors, limit⟩, [("id", id)])]
  , acked := (GraphEmbeddingsClient.receiveLoop id (timeout * 1000) arrivals).1
  , outcome := (GraphEmbeddingsClient.receiveLoop id (timeout * 1000) arrivals).2.1
  , elapsedMillis := (GraphEmbeddingsClient.receiveLoop id (timeout * 1000) arrivals).2.2 }

/-- A Python-level error, by its type. -/
inductive PyErr where
  | nameError
  | valueError (s : String)
  | other (s : String)
  deriving DecidableEq

/-- The schema `Value` record: `Value(value=..., is_uri=...)`. -/
structure Value where
  value : String
  is_uri : Bool
  deriving DecidableEq

/-- The payload of a `VectorsChunk` message as `extract.py`'s handler reads
it: `v.source.id`, `v.chunk` (bytes), `v.vectors`. -/
structure VChunk where
  sourceId : String
  chunk : List Nat
  vectors : List (List Int)
  deriving DecidableEq

/-- One relationship record of the JSON the LLM is asked for, as the emit
loop reads it: `rel["subject"]`, `rel["predicate"]`, `rel["object"]`,
`rel["object-entity"]`. -/
structure ExtractRelationships.Rel where
  subject : String
  predicate : String
  object : String
  object_entity : Bool
  deriving DecidableEq

/-- An output the relationship-extraction stage emits: a `Triple` sent on
the graph producer (`emit_edge`) or a `VectorsAssociation` sent on the
vector producer (`emit_vec`). -/
inductive ExtractRelationships.Emit where
  | edge (s p o : Value)
  | vec (ent : Value) (vectors : List (List Int))
  deriving DecidableEq

/-- External collaborators of `extract.py`'s `Processor.handle`: the
`bytes.decode("utf-8")` call on the chunk, the prompt builder
`to_relationships` (from `trustgraph.prompts`, outside the embedded core),
the LLM client's `request`, and the `RDF_LABEL` constant from
`trustgraph.rdf` wrapped as `RDF_LABEL_VALUE`. -/
structure ExtractRelationships.Env where
  decode : List Nat → Except PyErr String
  to_relationships : String → String
  llmRequest : String → Except PyErr String
  rdfLabel : Value

/-- `Processor.to_uri` (extract.py lines 53-59).  Its second statement is
`quoted = urllib.parse.quote(part)`, but the module never imports `urllib`,
so the call raises `NameError` for every input. -/
def ExtractRelationships.to_uri (_text : String) : Except PyErr String :=
  .error .nameError

/-- `Processor.get_relationships` (extract.py lines 61-68): build the
prompt, call the LLM, then `rels = json.loads(resp)` — the module never
imports `json`, so `json.loads` raises `NameError` for every response. -/
def ExtractRelationships.get_relationships (env : ExtractRelationships.Env)
    (chunk : String) : Except PyErr (List ExtractRelationships.Rel) := do
  let _resp ← env.llmRequest (env.to_relationships chunk)
  .error .nameError

/-- The `print(json.dumps(rels, indent=4))` statement (extract.py line 92):
`json` is not imported, so this raises `NameError`. -/
def ExtractRelationships.jsonDumps (_rels : List ExtractRelationships.Rel) :
    Except PyErr String :=
  .error .nameError

/-- The body of the emit loop for one relationship (extract.py lines
94-143): mint URIs for subject, predicate and (when `object-entity`)
object, emit the edge, the labels and the vector associations.  Each
`to_uri` call raises `NameError` (`urllib` unimported), so this can never
complete; it is kept for structure. -/
def ExtractRelationships.processRel (env : ExtractRelationships.Env)
    (vectors : List (List Int)) (rel : ExtractRelationships.Rel) :
    Except PyErr (List ExtractRelationships.Emit) := do
  let sUri ← ExtractRelationships.to_uri rel.subject
  let sValue : Value := ⟨sUri, true⟩
  let pUri ← ExtractRelationships.to_uri rel.predicate
  let pValue : Value := ⟨pUri, true⟩
  let oValue ←
    (if rel.object_entity then do
        let oUri ← ExtractRelationships.to_uri rel.object
        pure (⟨oUri, true⟩ : Value)
      else pure (⟨rel.object, false⟩ : Value))
  pure ([ExtractRelationships.Emit.edge sValue pValue oValue,
         ExtractRelationships.Emit.edge sValue env.rdfLabel ⟨rel.subject, false⟩,
         ExtractRelationships.Emit.edge pValue env.rdfLabel ⟨rel.predicate, false⟩]
    ++ (if rel.object_entity then
          [ExtractRelationships.Emit.edge oValue env.rdfLabel ⟨rel.object, false⟩]
        else [])
    ++ [ExtractRelationships.Emit.vec sValue vectors,
        ExtractRelationships.Emit.vec pValue vectors]
    ++ (if rel.object_entity then
          [ExtractRelationships.Emit.vec oValue vectors]
        else []))

/-- The `try` block of `Processor.handle` (extract.py lines 89-144):
`rels = self.get_relationships(chunk)`, `print(json.dumps(rels, ...))`,
then the emit loop over `rels`. -/
def ExtractRelationships.tryBlock (env : ExtractRelationships.Env)
    (chunk : String) (vectors : List (List Int)) :
    Except PyErr (List ExtractRelationships.Emit) := do
  let rels ← ExtractRelationships.get_relationships env chunk
  let _ ← ExtractRelationships.jsonDumps rels
  rels.foldlM
    (fun acc rel => do
      let es ← ExtractRelationships.processRel env vectors rel
      pure (acc ++ es))
    ([] : List ExtractRelationships.Emit)

/-- `Processor.handle` of the relationship-extraction stage (extract.py
lines 80-148).  Before the `try` block it runs `v = msg.value()`, a print,
`chunk = v.chunk.decode("utf-8")` and `g = rdflib.Graph()`; the module
never imports `rdflib`, so the `Graph()` call raises `NameError` on every
message and that error escapes `handle` (the `try`/`except Exception`
begins only afterwards, and its `except` clause merely prints). -/
def ExtractRelationships.Processor.handle (env : ExtractRelationships.Env)
    (msg : VChunk) : Except PyErr Unit := do
  let chunk ← env.decode msg.chunk
  let _g ← (.error .nameError : Except PyErr Unit)
  match ExtractRelationships.tryBlock env chunk msg.vectors with
  | .ok _ => pure ()
  | .error _ => pure ()

/-- The payload of a `VectorsAssociation` message as the Milvus writer
reads it: `v.entity` (a schema `Value`) and `v.vectors`. -/
structure MilvusWrite.VectorsAssociation where
  entity : Value
  vectors : List (List Int)
  deriving DecidableEq

/-- The `for vec in v.vectors: self.vecstore.insert(vec, v.entity.value)`
loop of the Milvus writer (write.py lines 50-51), with the store's `insert`
an external collaborator.  Returns the inserts performed in order; an
insert error escapes. -/
def MilvusWrite.insertEach (insert : List Int → String → Except PyErr Unit)
    (entity : String) : List (List Int) → Except PyErr (List (List Int × String))
  | [] => .ok []
  | vec :: rest => do
    let _ ← insert vec entity
    let l ← MilvusWrite.insertEach insert entity rest
    .ok ((vec, entity) :: l)

/-- `Processor.handle` of the Milvus vector-write stage (write.py lines
45-51): `if v.entity.value != "": for vec in v.vectors:
self.vecstore.insert(vec, v.entity.value)`. -/
def MilvusWrite.Processor.handle (insert : List Int → String → Except PyErr Unit)
    (msg : MilvusWrite.VectorsAssociation) :
    Except PyErr (List (List Int × String)) :=
  if msg.entity.value ≠ "" then
    MilvusWrite.insertEach insert msg.entity.value msg.vectors
  else .ok []

/-! Helper lemmas. -/

theorem BaseConsumer.iter_okCh {M Err : Type} (handle : M → Except Err Unit)
    (m : M) :
    BaseConsumer.iter handle BaseConsumer.okCh BaseConsumer.okCh m
      = (match handle m with
         | .ok _ => BaseConsumer.TryOutcome.acked
         | .error e => BaseConsumer.TryOutcome.nacked e) := by
  cases h : handle m <;>
    simp [BaseConsumer.iter, BaseConsumer.okCh, h, bind, Except.bind]

theorem BaseConsumer.loop_okCh {M Err : Type} (handle : M → Except Err Unit)
    (msgs : List M) :
    BaseConsumer.loop handle BaseConsumer.okCh BaseConsumer.okCh (msgs.map Except.ok)
      = (msgs.map (BaseConsumer.iterEvent handle), none) := by
  induction msgs with
  | nil => rfl
  | cons m rest ih =>
    simp only [List.map_cons, BaseConsumer.loop, BaseConsumer.iter_okCh]
    cases h : handle m <;> simp [ih, BaseConsumer.iterEvent, h]

/-- C1: each iteration of `BaseConsumer.loop` performs exactly one of
acknowledge / negative-acknowledge on the received message — acknowledge
when the handler returns, negative-acknowledge when it raises — and the
loop continues past handler errors rather than terminating; for a handler
that never raises over `N` messages, the result is exactly the `N`
acknowledgements and no negative-acknowledgement. -/
theorem consumer_loop_acks_on_success_nacks_on_error {M Err : Type}
    (handle : M → Except Err Unit) (msgs : List M) :
    BaseConsumer.loop handle BaseConsumer.okCh BaseConsumer.okCh (msgs.map Except.ok)
        = (msgs.map (BaseConsumer.iterEvent handle), none)
    ∧ ((∀ m ∈ msgs, handle m = Except.ok ()) →
        BaseConsumer.loop handle BaseConsumer.okCh BaseConsumer.okCh
            (msgs.map Except.ok)
          = (msgs.map Event.ack, none)) := by
  refine ⟨BaseConsumer.loop_okCh handle msgs, fun hok => ?_⟩
  rw [BaseConsumer.loop_okCh]
  have h : msgs.map (BaseConsumer.iterEvent handle) = msgs.map Event.ack :=
    List.map_congr_left fun m hm => by
      simp [BaseConsumer.iterEvent, hok m hm]
  rw [h]

/-- Witness for C1 at three concrete messages and a never-raising handler. -/
theorem consumer_loop_acks_on_success_nacks_on_error_witness :
    BaseConsumer.loop (fun _ => Except.ok () : Nat → Except String Unit)
        BaseConsumer.okCh BaseConsumer.okCh ([1, 2, 3].map Except.ok)
      = ([1, 2, 3].map Event.ack, none) :=
  (consumer_loop_acks_on_success_nacks_on_error _ [1, 2, 3]).2 fun _ _ => rfl

/-- C6 counterexample: with a healthy `receive` and `negative_acknowledge`
but an `acknowledge` that raises on message `0`, the acknowledge error
does not escape the loop (no error propagates, second component `none`):
the message is negative-acknowledged locally and the loop continues with
message `1` — the `try` block of `BaseConsumer.loop` encloses the
`acknowledge` call, so its error is handled like a handler error, refuting
the claim that an error inside `acknowledge` propagates as stage-fatal. -/
theorem consumer_loop_ack_error_handled_locally_counterexample :
    BaseConsumer.loop (fun _ => Except.ok ())
        (fun m => if m = 0 then Except.error "ackfail" else Except.ok ())
        BaseConsumer.okCh [Except.ok 0, Except.ok 1]
      = ([Event.nack 0, Event.ack 1], (none : Option String)) := by
  decide

/-- C6 (amended): an error raised by the broker inside `receive()` escapes
the loop and propagates to the supervisor as stage-fatal; an error raised
by `acknowledge()`, by contrast, is caught by the same `except` clause as
a handler error and handled locally — the message is negative-acknowledged
and the loop continues with the next message. -/
theorem consumer_loop_receive_error_escapes_ack_error_local {M Err : Type}
    (handle ackOp nackOp : M → Except Err Unit) (e : Err) (m : M)
    (script : List (Except Err M)) :
    BaseConsumer.loop handle ackOp nackOp (Except.error e :: script) = ([], some e)
    ∧ (handle m = Except.ok () → ackOp m = Except.error e →
        nackOp m = Except.ok () →
        BaseConsumer.loop handle ackOp nackOp (Except.ok m :: script)
          = (Event.nack m :: (BaseConsumer.loop handle ackOp nackOp script).1,
             (BaseConsumer.loop handle ackOp nackOp script).2)) := by
  refine ⟨rfl, fun hh ha hn => ?_⟩
  simp [BaseConsumer.loop, BaseConsumer.iter, hh, ha, hn, bind, Except.bind]

/-- Witness for C6's amended theorem at a concrete failing acknowledge. -/
theorem consumer_loop_receive_error_escapes_ack_error_local_witness :
    BaseConsumer.loop (fun _ => Except.ok () : Nat → Except String Unit)
        (fun _ => Except.error "ackfail") BaseConsumer.okCh
        [Except.ok 5, Except.ok 6]
      = (Event.nack 5 :: (BaseConsumer.loop (fun _ => Except.ok ())
            (fun _ => Except.error "ackfail") BaseConsumer.okCh
            [Except.ok 6]).1,
         (BaseConsumer.loop (fun _ => Except.ok ())
            (fun _ => Except.error "ackfail") BaseConsumer.okCh
            [Except.ok 6]).2) :=
  (consumer_loop_receive_error_escapes_ack_error_local _ _ _ "ackfail" 5
      [Except.ok 6]).2 rfl rfl rfl

/-- C7: when `stop()` is requested during iteration `k`, the loop completes
exactly the first `min (k + 1) N` iterations — the in-flight message still
receives its full acknowledge / negative-acknowledge, since the stop is
only observed at the `while self.running` boundary — and performs no
further `receive`; without a stop request the loop processes every
delivered message and never leaves its running state of its own accord. -/
theorem consumer_loop_stop_at_iteration_boundary {M Err : Type}
    (handle : M → Except Err Unit) (k : Nat) (msgs : List M) :
    BaseConsumer.loopWithStop handle k msgs
        = (msgs.take (k + 1)).map (BaseConsumer.iterEvent handle)
    ∧ (BaseConsumer.loopWithStop handle k msgs).length = min (k + 1) msgs.length
    ∧ BaseConsumer.loop handle BaseConsumer.okCh BaseConsumer.okCh
          (msgs.map Except.ok)
        = (msgs.map (BaseConsumer.iterEvent handle), none) := by
  have h1 : BaseConsumer.loopWithStop handle k msgs
      = (msgs.take (k + 1)).map (BaseConsumer.iterEvent handle) := by
    induction msgs generalizing k with
    | nil => simp [BaseConsumer.loopWithStop]
    | cons m rest ih =>
      cases k with
      | zero => simp [BaseConsumer.loopWithStop]
      | succ k2 => simp [BaseConsumer.loopWithStop, ih k2]
  refine ⟨h1, ?_, BaseConsumer.loop_okCh handle msgs⟩
  rw [h1]
  simp [List.length_take]

theorem BaseProcessor.start_no_interrupt {Err : Type} :
    ∀ script : List (BaseProcessor.Outcome Err),
      (∀ o ∈ script, o ≠ BaseProcessor.Outcome.keyboardInterrupt
          ∧ o ≠ BaseProcessor.Outcome.pulsarInterrupted) →
      (BaseProcessor.start script).2 = false
      ∧ (BaseProcessor.start script).1.countP BaseProcessor.SupEvent.isAttempt
          = script.length
  | [], _ => by simp [BaseProcessor.start]
  | o :: rest, hs => by
    have ih := BaseProcessor.start_no_interrupt rest
      (fun o2 h2 => hs o2 (List.mem_cons_of_mem _ h2))
    cases o with
    | ok =>
      simp [BaseProcessor.start, List.countP_cons,
        BaseProcessor.SupEvent.isAttempt, ih.1, ih.2]
    | keyboardInterrupt => exact absurd rfl (hs _ (List.mem_cons_self _ _)).1
    | pulsarInterrupted => exact absurd rfl (hs _ (List.mem_cons_self _ _)).2
    | exc e2 =>
      simp [BaseProcessor.start, List.countP_cons,
        BaseProcessor.SupEvent.isAttempt, ih.1, ih.2]

/-- C3: the supervisor loop of `BaseProcessor.start` returns cleanly on a
`KeyboardInterrupt` or a `_pulsar.Interrupted` without any retry; on any
other exception raised during stage construction or run it logs the
error, sleeps the fixed 10-second backoff and reconstructs the stage from
scratch; over any script of attempts free of interrupts it never
terminates and makes one construct-and-run attempt per script entry —
there is no maximum-retry ceiling. -/
theorem supervisor_retries_forever_until_interrupt {Err : Type} (e : Err)
    (rest script : List (BaseProcessor.Outcome Err)) :
    BaseProcessor.start (BaseProcessor.Outcome.keyboardInterrupt :: rest)
        = ([BaseProcessor.SupEvent.attempt], true)
    ∧ BaseProcessor.start (BaseProcessor.Outcome.pulsarInterrupted :: rest)
        = ([BaseProcessor.SupEvent.attempt], true)
    ∧ BaseProcessor.start (BaseProcessor.Outcome.exc e :: rest)
        = (BaseProcessor.SupEvent.attempt :: BaseProcessor.SupEvent.logged e
            :: BaseProcessor.SupEvent.slept 10 :: (BaseProcessor.start rest).1,
           (BaseProcessor.start rest).2)
    ∧ ((∀ o ∈ script, o ≠ BaseProcessor.Outcome.keyboardInterrupt
          ∧ o ≠ BaseProcessor.Outcome.pulsarInterrupted) →
        (BaseProcessor.start script).2 = false
        ∧ (BaseProcessor.start script).1.countP BaseProcessor.SupEvent.isAttempt
            = script.length) :=
  ⟨rfl, rfl, rfl, BaseProcessor.start_no_interrupt script⟩

/-- Witness for C3: a normal return followed by an exception never makes
the supervisor exit and yields one attempt per script entry. -/
theorem supervisor_retries_forever_until_interrupt_witness :
    (BaseProcessor.start
        [BaseProcessor.Outcome.ok, BaseProcessor.Outcome.exc "boom"]).2 = false
    ∧ (BaseProcessor.start
        [BaseProcessor.Outcome.ok, BaseProcessor.Outcome.exc "boom"]).1.countP
        BaseProcessor.SupEvent.isAttempt = 2 :=
  (supervisor_retries_forever_until_interrupt "boom" []
      [BaseProcessor.Outcome.ok, BaseProcessor.Outcome.exc "boom"]).2.2.2
    (by decide)

theorem GraphEmbeddingsClient.receiveLoop_skips (id : String) (budget : Nat) :
    ∀ (pre rest : List (Nat × RespMsg)),
      (∀ p ∈ pre, p.1 ≤ budget
          ∧ ∃ mid, p.2.props.lookup "id" = some mid ∧ mid ≠ id) →
      GraphEmbeddingsClient.receiveLoop id budget (pre ++ rest)
        = (pre.map Prod.snd ++ (GraphEmbeddingsClient.receiveLoop id budget rest).1,
           (GraphEmbeddingsClient.receiveLoop id budget rest).2.1,
           (pre.map Prod.fst).sum
             + (GraphEmbeddingsClient.receiveLoop id budget rest).2.2)
  | [], rest, _ => by simp
  | (d0, m0) :: pre2, rest, hpre => by
    obtain ⟨hd0, mid0, hlk, hne⟩ := hpre (d0, m0) (List.mem_cons_self _ _)
    have ih := GraphEmbeddingsClient.receiveLoop_skips id budget pre2 rest
      (fun p hp => hpre p (List.mem_cons_of_mem _ hp))
    simp only [List.cons_append, GraphEmbeddingsClient.receiveLoop,
      if_neg (not_lt.mpr hd0), hlk, if_neg hne, List.append_eq]
    rw [ih]
    simp [add_assoc]

theorem GraphEmbeddingsClient.receiveLoop_match (id : String) (budget d : Nat)
    (m : RespMsg) (post : List (Nat × RespMsg)) (hd : d ≤ budget)
    (hm : m.props.lookup "id" = some id) :
    GraphEmbeddingsClient.receiveLoop id budget ((d, m) :: post)
      = ([m], ReqOutcome.success m.entities, d) := by
  simp only [GraphEmbeddingsClient.receiveLoop, if_neg (not_lt.mpr hd), hm]
  simp

theorem GraphEmbeddingsClient.receiveLoop_missing_id (id : String)
    (budget d : Nat) (m : RespMsg) (post : List (Nat × RespMsg))
    (hd : d ≤ budget) (hm : m.props.lookup "id" = none) :
    GraphEmbeddingsClient.receiveLoop id budget ((d, m) :: post)
      = ([], ReqOutcome.keyError, d) := by
  simp only [GraphEmbeddingsClient.receiveLoop, if_neg (not_lt.mpr hd), hm]

/-- C2: `request` sends the request exactly once, tagged with the generated
correlation id under the `id` property, and returns — acknowledging it —
the entities of the payload of the first response whose `id` property
equals that correlation id; every differently-tagged response arriving
first is acknowledged and discarded, not returned. -/
theorem request_returns_first_matching_reply (id : String)
    (vectors : List (List Int)) (limit timeout : Nat)
    (pre : List (Nat × RespMsg)) (d : Nat) (m : RespMsg)
    (post : List (Nat × RespMsg))
    (hpre : ∀ p ∈ pre, p.1 ≤ timeout * 1000
        ∧ ∃ mid, p.2.props.lookup "id" = some mid ∧ mid ≠ id)
    (hd : d ≤ timeout * 1000) (hm : m.props.lookup "id" = some id) :
    (GraphEmbeddingsClient.request id vectors limit timeout
        (pre ++ (d, m) :: post)).sent
        = [(⟨vectors, limit⟩, [("id", id)])]
    ∧ (GraphEmbeddingsClient.request id vectors limit timeout
        (pre ++ (d, m) :: post)).outcome = ReqOutcome.success m.entities
    ∧ (GraphEmbeddingsClient.request id vectors limit timeout
        (pre ++ (d, m) :: post)).acked = pre.map Prod.snd ++ [m] := by
  have h := GraphEmbeddingsClient.receiveLoop_skips id (timeout * 1000) pre
    ((d, m) :: post) hpre
  rw [GraphEmbeddingsClient.receiveLoop_match id (timeout * 1000) d m post hd hm]
    at h
  exact ⟨rfl, by simp [GraphEmbeddingsClient.request, h],
    by simp [GraphEmbeddingsClient.request, h]⟩

/-- Witness for C2: a non-matching reply arrives first, then the matching
one; the call returns the matching entities and acknowledges both. -/
theorem request_returns_first_matching_reply_witness :
    (GraphEmbeddingsClient.request "abc" [] 10 500
        [(5, ⟨[("id", "zzz")], ["x"]⟩), (7, ⟨[("id", "abc")], ["ent1"]⟩)]).sent
        = [(⟨[], 10⟩, [("id", "abc")])]
    ∧ (GraphEmbeddingsClient.request "abc" [] 10 500
        [(5, ⟨[("id", "zzz")], ["x"]⟩), (7, ⟨[("id", "abc")], ["ent1"]⟩)]).outcome
        = ReqOutcome.success ["ent1"]
    ∧ (GraphEmbeddingsClient.request "abc" [] 10 500
        [(5, ⟨[("id", "zzz")], ["x"]⟩), (7, ⟨[("id", "abc")], ["ent1"]⟩)]).acked
        = [⟨[("id", "zzz")], ["x"]⟩, ⟨[("id", "abc")], ["ent1"]⟩] :=
  request_returns_first_matching_reply "abc" [] 10 500
    [(5, ⟨[("id", "zzz")], ["x"]⟩)] 7 ⟨[("id", "abc")], ["ent1"]⟩ []
    (by
      intro p hp
      rcases List.mem_singleton.mp hp with rfl
      exact ⟨by norm_num, "zzz", rfl, by decide⟩)
    (by norm_num) rfl

/-- C4 counterexample: with `timeout = 500` — per the claim a value in
milliseconds — and no reply ever arriving, the call does fail with the
timeout error without retrying, but only after 500000 ms of blocking: the
source passes `timeout_millis = timeout * 1000` to `receive`, a
thousandfold the claimed ≈ 500 ms. -/
theorem request_timeout_units_counterexample :
    (GraphEmbeddingsClient.request "abc" [[1]] 10 500 []).outcome
        = ReqOutcome.timeoutError
    ∧ (GraphEmbeddingsClient.request "abc" [[1]] 10 500 []).elapsedMillis
        = 500000
    ∧ (500000 : Nat) = 1000 * 500 ∧ (500000 : Nat) ≠ 500 :=
  ⟨rfl, rfl, rfl, by decide⟩

/-- C4 (amended): with no reply ever arriving,
`request(payload, timeout=T)` fails with the timeout error after
approximately `T * 1000` milliseconds of blocking — `receive` is invoked
with `timeout_millis = timeout * 1000`, so the parameter is effectively in
seconds, not milliseconds — and the client issues no retry: the request is
sent exactly once and nothing is acknowledged. -/
theorem request_timeout_no_retry (id : String) (vectors : List (List Int))
    (limit timeout : Nat) :
    GraphEmbeddingsClient.request id vectors limit timeout []
      = { sent := [(⟨vectors, limit⟩, [("id", id)])], acked := [],
          outcome := ReqOutcome.timeoutError,
          elapsedMillis := timeout * 1000 } := rfl

/-- C5 counterexample: `timeout = 1` (per-receive budget 1000 ms); two
non-matching replies each arrive after 1000 ms of waiting, then the final
`receive` times out after its own full 1000 ms: the call blocks 3000 ms in
total, exceeding the original budget — each iteration is issued with the
full timeout again, not with a remainder derived from the call's original
deadline. -/
theorem request_budget_not_rederived_counterexample :
    (GraphEmbeddingsClient.request "abc" [] 10 1
        [(1000, ⟨[("id", "zzz")], []⟩),
         (1000, ⟨[("id", "zzz")], []⟩)]).elapsedMillis = 3000
    ∧ (GraphEmbeddingsClient.request "abc" [] 10 1
        [(1000, ⟨[("id", "zzz")], []⟩),
         (1000, ⟨[("id", "zzz")], []⟩)]).outcome = ReqOutcome.timeoutError
    ∧ 1 * 1000 < 3000 :=
  ⟨rfl, rfl, by decide⟩

theorem GraphEmbeddingsClient.receiveLoop_elapsed_le (id : String)
    (budget : Nat) :
    ∀ arrivals : List (Nat × RespMsg),
      (GraphEmbeddingsClient.receiveLoop id budget arrivals).2.2
        ≤ ((GraphEmbeddingsClient.receiveLoop id budget arrivals).1.length + 1)
            * budget
  | [] => by simp [GraphEmbeddingsClient.receiveLoop]
  | (d, m) :: rest => by
    have ih := GraphEmbeddingsClient.receiveLoop_elapsed_le id budget rest
    by_cases h : budget < d
    · simp [GraphEmbeddingsClient.receiveLoop, h]
    · have hd2 : d ≤ budget := Nat.le_of_not_lt h
      cases hlk : m.props.lookup "id" with
      | none =>
        simp only [GraphEmbeddingsClient.receiveLoop, if_neg h, hlk]
        simpa using hd2
      | some mid =>
        by_cases hm : mid = id
        · simp only [GraphEmbeddingsClient.receiveLoop, if_neg h, hlk,
            if_pos hm]
          simp only [List.length_cons, List.length_nil]
          calc d ≤ budget := hd2
            _ ≤ (0 + 1 + 1) * budget := Nat.le_mul_of_pos_left budget
              (by norm_num)
        · simp only [GraphEmbeddingsClient.receiveLoop, if_neg h, hlk,
            if_neg hm, List.length_cons]
          have h2 : ((GraphEmbeddingsClient.receiveLoop id budget rest).1.length
              + 1 + 1) * budget
              = budget + ((GraphEmbeddingsClient.receiveLoop id budget
                  rest).1.length + 1) * budget := by ring
          rw [h2]
          exact Nat.add_le_add hd2 ih

/-- C5 (amended): a reply with a non-matching `id` is acknowledged,
discarded, and the loop keeps waiting — but each new `receive` is issued
with the full `timeout * 1000` budget again rather than with a remainder
re-derived from the call's original deadline; consequently the total
blocking time of the call is not bounded by the original budget but only
by `(number of discarded replies + 1) * (timeout * 1000)`. -/
theorem request_full_budget_each_receive (id mid : String) (budget d : Nat)
    (m : RespMsg) (rest : List (Nat × RespMsg)) (vectors : List (List Int))
    (limit timeout : Nat) (arrivals : List (Nat × RespMsg))
    (hd : d ≤ budget) (hlk : m.props.lookup "id" = some mid) (hne : mid ≠ id) :
    GraphEmbeddingsClient.receiveLoop id budget ((d, m) :: rest)
        = (m :: (GraphEmbeddingsClient.receiveLoop id budget rest).1,
           (GraphEmbeddingsClient.receiveLoop id budget rest).2.1,
           d + (GraphEmbeddingsClient.receiveLoop id budget rest).2.2)
    ∧ (GraphEmbeddingsClient.request id vectors limit timeout
          arrivals).elapsedMillis
        ≤ ((GraphEmbeddingsClient.request id vectors limit timeout
              arrivals).acked.length + 1) * (timeout * 1000) := by
  constructor
  · simp only [GraphEmbeddingsClient.receiveLoop, if_neg (not_lt.mpr hd), hlk,
      if_neg hne]
  · exact GraphEmbeddingsClient.receiveLoop_elapsed_le id (timeout * 1000)
      arrivals

/-- Witness for C5's amended theorem at a concrete non-matching reply. -/
theorem request_full_budget_each_receive_witness :
    GraphEmbeddingsClient.receiveLoop "abc" 1000 [(900, ⟨[("id", "zzz")], []⟩)]
        = (⟨[("id", "zzz")], []⟩
             :: (GraphEmbeddingsClient.receiveLoop "abc" 1000 []).1,
           (GraphEmbeddingsClient.receiveLoop "abc" 1000 []).2.1,
           900 + (GraphEmbeddingsClient.receiveLoop "abc" 1000 []).2.2)
    ∧ (GraphEmbeddingsClient.request "abc" [] 10 1
          [(900, ⟨[("id", "zzz")], []⟩)]).elapsedMillis
        ≤ ((GraphEmbeddingsClient.request "abc" [] 10 1
              [(900, ⟨[("id", "zzz")], []⟩)]).acked.length + 1) * (1 * 1000) :=
  request_full_budget_each_receive "abc" "zzz" 1000 900 ⟨[("id", "zzz")], []⟩
    [] [] 10 1 [(900, ⟨[("id", "zzz")], []⟩)] (by norm_num) rfl (by decide)

/-- C9: when a response whose properties carry no `id` key arrives within
the receive budget (after any number of acknowledged non-matching
replies), `msg.properties()["id"]` raises `KeyError` out of `request`: the
call terminates with neither a success payload nor a timeout error, and
the offending message is never acknowledged. -/
theorem request_keyerror_on_missing_id (id : String)
    (vectors : List (List Int)) (limit timeout : Nat)
    (pre : List (Nat × RespMsg)) (d : Nat) (m : RespMsg)
    (post : List (Nat × RespMsg))
    (hpre : ∀ p ∈ pre, p.1 ≤ timeout * 1000
        ∧ ∃ mid, p.2.props.lookup "id" = some mid ∧ mid ≠ id)
    (hd : d ≤ timeout * 1000) (hm : m.props.lookup "id" = none) :
    (GraphEmbeddingsClient.request id vectors limit timeout
        (pre ++ (d, m) :: post)).outcome = ReqOutcome.keyError
    ∧ (GraphEmbeddingsClient.request id vectors limit timeout
        (pre ++ (d, m) :: post)).acked = pre.map Prod.snd
    ∧ m ∉ (GraphEmbeddingsClient.request id vectors limit timeout
        (pre ++ (d, m) :: post)).acked := by
  have h := GraphEmbeddingsClient.receiveLoop_skips id (timeout * 1000) pre
    ((d, m) :: post) hpre
  rw [GraphEmbeddingsClient.receiveLoop_missing_id id (timeout * 1000) d m post
    hd hm] at h
  have hack : (GraphEmbeddingsClient.request id vectors limit timeout
      (pre ++ (d, m) :: post)).acked = pre.map Prod.snd := by
    simp [GraphEmbeddingsClient.request, h]
  refine ⟨by simp [GraphEmbeddingsClient.request, h], hack, ?_⟩
  rw [hack]
  intro hmem
  obtain ⟨p, hp, hpm⟩ := List.mem_map.mp hmem
  obtain ⟨_, mid, hlk, _⟩ := hpre p hp
  rw [hpm] at hlk
  rw [hm] at hlk
  exact Option.noConfusion hlk

/-- Witness for C9: after one acknowledged non-matching reply, a reply
without an `id` property ends the call with `KeyError`, unacknowledged. -/
theorem request_keyerror_on_missing_id_witness :
    (GraphEmbeddingsClient.request "abc" [] 10 500
        [(5, ⟨[("id", "zzz")], []⟩), (7, ⟨[("name", "v")], []⟩)]).outcome
        = ReqOutcome.keyError
    ∧ (GraphEmbeddingsClient.request "abc" [] 10 500
        [(5, ⟨[("id", "zzz")], []⟩), (7, ⟨[("name", "v")], []⟩)]).acked
        = [⟨[("id", "zzz")], []⟩]
    ∧ (⟨[("name", "v")], []⟩ : RespMsg)
        ∉ (GraphEmbeddingsClient.request "abc" [] 10 500
            [(5, ⟨[("id", "zzz")], []⟩), (7, ⟨[("name", "v")], []⟩)]).acked :=
  request_keyerror_on_missing_id "abc" [] 10 500
    [(5, ⟨[("id", "zzz")], []⟩)] 7 ⟨[("name", "v")], []⟩ []
    (by
      intro p hp
      rcases List.mem_singleton.mp hp with rfl
      exact ⟨by norm_num, "zzz", rfl, by decide⟩)
    (by norm_num) rfl

theorem ExtractRelationships.handle_eq (env : ExtractRelationships.Env)
    (msg : VChunk) :
    ExtractRelationships.Processor.handle env msg
      = (match env.decode msg.chunk with
         | .error e => Except.error e
         | .ok _ => Except.error PyErr.nameError) := by
  cases h : env.decode msg.chunk <;>
    simp [ExtractRelationships.Processor.handle, h, bind, Except.bind]

/-- C8 counterexample: a concrete message whose chunk decodes fine and
whose extraction collaborators all succeed is still not acknowledged —
`handle` raises `NameError` at `g = rdflib.Graph()` (the module never
imports `rdflib`), before the internal catch-all is even entered, so the
Consumer Loop negative-acknowledges the message rather than acknowledging
it. -/
theorem extract_handle_raises_counterexample :
    ExtractRelationships.Processor.handle
        ⟨fun _ => Except.ok "text", fun s => s, fun _ => Except.ok "resp",
         ⟨"label", true⟩⟩
        ⟨"doc1", [104, 105], [[1, 2]]⟩
      = Except.error PyErr.nameError
    ∧ (BaseConsumer.loop
        (ExtractRelationships.Processor.handle
          ⟨fun _ => Except.ok "text", fun s => s, fun _ => Except.ok "resp",
           ⟨"label", true⟩⟩)
        BaseConsumer.okCh BaseConsumer.okCh
        [Except.ok ⟨"doc1", [104, 105], [[1, 2]]⟩]).1
      = [Event.nack ⟨"doc1", [104, 105], [[1, 2]]⟩] :=
  ⟨rfl, rfl⟩

/-- C8 (amended): the catch-all inside the relationship-extraction
`handle` covers only the extraction and emission work; the preamble —
reading the value, decoding the chunk and `g = rdflib.Graph()` — runs
outside it, and because the module does not import `rdflib` that preamble
raises `NameError` on every message (or the decode error when decoding
fails first).  `handle` therefore raises for every input message, and the
Consumer Loop negative-acknowledges every message of this stage,
acknowledging none. -/
theorem extract_handle_always_raises (env : ExtractRelationships.Env)
    (msgs : List VChunk) :
    (∀ msg : VChunk, ∃ e,
        ExtractRelationships.Processor.handle env msg = Except.error e)
    ∧ BaseConsumer.loop (ExtractRelationships.Processor.handle env)
        BaseConsumer.okCh BaseConsumer.okCh (msgs.map Except.ok)
      = (msgs.map Event.nack, none) := by
  have herr : ∀ msg : VChunk, ∃ e,
      ExtractRelationships.Processor.handle env msg = Except.error e := by
    intro msg
    rw [ExtractRelationships.handle_eq]
    cases h : env.decode msg.chunk with
    | error e => exact ⟨e, rfl⟩
    | ok s => exact ⟨PyErr.nameError, rfl⟩
  refine ⟨herr, ?_⟩
  rw [BaseConsumer.loop_okCh]
  have h : msgs.map (BaseConsumer.iterEvent
      (ExtractRelationships.Processor.handle env)) = msgs.map Event.nack :=
    List.map_congr_left fun m _ => by
      obtain ⟨e, he⟩ := herr m
      simp [BaseConsumer.iterEvent, he]
  rw [h]

theorem MilvusWrite.insertEach_ok
    (insert : List Int → String → Except PyErr Unit) (entity : String)
    (hins : ∀ vec ent, insert vec ent = Except.ok ()) :
    ∀ vecs : List (List Int),
      MilvusWrite.insertEach insert entity vecs
        = Except.ok (vecs.map (fun vec => (vec, entity)))
  | [] => rfl
  | vec :: rest => by
    simp [MilvusWrite.insertEach, hins,
      MilvusWrite.insertEach_ok insert entity hins rest, bind, Except.bind]

/-- C10: the Milvus write handler performs one store insert per element of
the message's vectors list exactly when the entity value is a non-empty
string (shown here with a store that accepts the inserts); a message whose
entity value is the empty string performs no insert at all and completes
without raising — whatever the store's insert would do — so the Consumer
Loop acknowledges it as successfully processed. -/
theorem milvus_handle_inserts_iff_entity_nonempty
    (insert : List Int → String → Except PyErr Unit)
    (msg : MilvusWrite.VectorsAssociation) :
    ((∀ vec ent, insert vec ent = Except.ok ()) → msg.entity.value ≠ "" →
      MilvusWrite.Processor.handle insert msg
        = Except.ok (msg.vectors.map (fun vec => (vec, msg.entity.value))))
    ∧ (msg.entity.value = "" →
        MilvusWrite.Processor.handle insert msg = Except.ok []
        ∧ BaseConsumer.iterEvent
            (fun m => (MilvusWrite.Processor.handle insert m).map
              (fun _ => ())) msg
          = Event.ack msg) := by
  constructor
  · intro hins hne
    simp [MilvusWrite.Processor.handle, hne,
      MilvusWrite.insertEach_ok insert msg.entity.value hins msg.vectors]
  · intro hempty
    have hh : MilvusWrite.Processor.handle insert msg = Except.ok [] := by
      simp [MilvusWrite.Processor.handle, hempty]
    exact ⟨hh, by simp [BaseConsumer.iterEvent, hh, Except.map]⟩

/-- Witness for C10 at a non-empty and an empty entity value. -/
theorem milvus_handle_inserts_iff_entity_nonempty_witness :
    MilvusWrite.Processor.handle (fun _ _ => Except.ok ())
        ⟨⟨"ent", false⟩, [[1], [2]]⟩
        = Except.ok [([1], "ent"), ([2], "ent")]
    ∧ MilvusWrite.Processor.handle (fun _ _ => Except.ok ())
        ⟨⟨"", false⟩, [[1], [2]]⟩
        = Except.ok [] :=
  ⟨(milvus_handle_inserts_iff_entity_nonempty (fun _ _ => Except.ok ())
      ⟨⟨"ent", false⟩, [[1], [2]]⟩).1 (fun _ _ => rfl) (by decide),
   ((milvus_handle_inserts_iff_entity_nonempty (fun _ _ => Except.ok ())
      ⟨⟨"", false⟩, [[1], [2]]⟩).2 rfl).1⟩

end TrustGraph
